import Mathlib

/-!
# Verification of the conversation-context / reply-routing slice

A shallow embedding, in Lean 4, of the state-tracking slice of the
WhatsApp/Telegram fact-checking chatbot: the message normalizer, the
per-user conversation-context store, the reply-routing and button-to-claim
tables, the fact-check result cleaner, and the intent dispatcher.

Python strings are modelled as Lean `String` (sequences of Unicode scalar
values, matching CPython code-point semantics), Python dictionaries as
insertion-ordered association lists with overwrite-in-place assignment
(CPython 3.7+ semantics), Python JSON values as an inductive `Json` type
distinguishing `int` and `float` (with exact rational arithmetic standing
in for IEEE doubles), and Python exceptions as `Except String`.  External
HTTP collaborators (the Factiverse endpoints, the generator, the platform
send APIs, the prompt catalogue that is not part of this snapshot) are
oracle fields of an `Env` record; the code under test is everything that
happens around those calls.
-/

namespace Chatbot

/-! ## Python string primitives -/

/-- Characters that CPython `str.strip()` removes (`str.isspace`),
restricted to those reachable in this code base (ASCII whitespace plus
the non-breaking space). -/
def isPySpace (c : Char) : Bool :=
  c = ' ' || c = '\t' || c = '\n' || c = '\r' || c = '\x0b' || c = '\x0c' ||
    c = '\xa0'

/-- `s.strip()` on a list of characters. -/
def pyStripL (l : List Char) : List Char :=
  ((l.dropWhile isPySpace).reverse.dropWhile isPySpace).reverse

/-- Python `s.strip()`. -/
def pyStrip (s : String) : String := String.mk (pyStripL s.data)

/-- `s.replace(old, new)` for a one-character `old`, on character lists.
Every use of `str.replace` in the embedded code has a single-character
pattern, for which CPython replacement is exactly this character map. -/
def replaceCharL (l : List Char) (c : Char) (r : List Char) : List Char :=
  l.flatMap (fun ch => if ch = c then r else [ch])

/-- Python `s.replace(old, new)` with `len(old) == 1`. -/
def replaceChar (s : String) (c : Char) (r : String) : String :=
  String.mk (replaceCharL s.data c r.data)

/-- Field count of Python `s.split()` (no separator: split on runs of
whitespace, dropping empty fields).  The boolean records whether the scan
is currently inside a word.  Used only for `len(message_text.split())`. -/
def pySplitCountAux : List Char → Bool → Nat
  | [], _ => 0
  | c :: t, inWord =>
    if isPySpace c then pySplitCountAux t false
    else (if inWord then 0 else 1) + pySplitCountAux t true

/-- Number of fields of Python `s.split()`. -/
def pySplitCount (s : String) : Nat := pySplitCountAux s.data false

/-! ## Python dictionaries (insertion-ordered association lists) -/

/-- First binding of `k` in the association list, CPython lookup. -/
def dictLookup {α : Type} : List (String × α) → String → Option α
  | [], _ => none
  | p :: t, k => if p.1 = k then some p.2 else dictLookup t k

/-- `d.get(k, dflt)`. -/
def dictGetD {α : Type} (d : List (String × α)) (k : String) (dflt : α) : α :=
  (dictLookup d k).getD dflt

/-- `d[k] = v`: overwrite in place when the key exists (keeping insertion
order), append otherwise — CPython 3.7+ dict assignment. -/
def dictSet {α : Type} : List (String × α) → String → α → List (String × α)
  | [], k, v => [(k, v)]
  | p :: t, k, v => if p.1 = k then (k, v) :: t else p :: dictSet t k v

theorem dictLookup_dictSet_self {α : Type} (d : List (String × α))
    (k : String) (v : α) : dictLookup (dictSet d k v) k = some v := by
  induction d with
  | nil => simp [dictSet, dictLookup]
  | cons p t ih =>
    by_cases hp : p.1 = k
    · simp [dictSet, dictLookup, hp]
    · simp [dictSet, dictLookup, hp, ih]

theorem dictLookup_dictSet_other {α : Type} (d : List (String × α))
    (k k' : String) (v : α) (hne : k' ≠ k) :
    dictLookup (dictSet d k v) k' = dictLookup d k' := by
  have h1 : ¬((k : String) = k') := fun h => hne h.symm
  induction d with
  | nil => simp [dictSet, dictLookup, h1]
  | cons p t ih =>
    by_cases hp : p.1 = k
    · simp only [dictSet, hp, if_true]
      simp [dictLookup, h1, hp]
    · simp only [dictSet, hp, if_false]
      by_cases hp' : p.1 = k'
      · simp [dictLookup, hp']
      · simp [dictLookup, hp', ih]

theorem dictLookup_absent {α : Type} (d : List (String × α)) (k : String)
    (h : ∀ p ∈ d, p.1 ≠ k) : dictLookup d k = none := by
  induction d with
  | nil => rfl
  | cons p t ih =>
    have hp : ¬(p.1 = k) := h p (by simp)
    simp only [dictLookup, hp, if_false]
    exact ih (fun q hq => h q (by simp [hq]))

/-! ## Reply-Routing Table (src/whatsapp/routers.py)

The module-level dict `message_id_to_bot_message`.  Recording is the
assignment `message_id_to_bot_message[bot_message_id] = response`
(routers.py lines 350–352 and the other send sites); resolution on a
reaction is `message_id_to_bot_message.get(id_reacted_to, "")`
(routers.py lines 194–197). -/

namespace ReplyRouting

/-- `message_id_to_bot_message[bot_message_id] = response`. -/
def record (table : List (String × String)) (outbound_id text : String) :
    List (String × String) :=
  dictSet table outbound_id text

/-- `message_id_to_bot_message.get(id_reacted_to, "")`. -/
def resolve (table : List (String × String)) (inbound_ref : String) : String :=
  dictGetD table inbound_ref ""

end ReplyRouting

/-! ## Conversation Context Store (src/whatsapp/routers.py lines 81–82,
139–142; src/platform/telegram/routers.py lines 123–129) -/

namespace ContextStore

/-- The creation-then-append sequence the routers run for an inbound user
line: `if key not in message_context: message_context[key] = []` followed
by `message_context[key].append(line)`. -/
def ctx_append (store : List (String × List String)) (user line : String) :
    List (String × List String) :=
  let store1 :=
    if (dictLookup store user).isNone then dictSet store user [] else store
  dictSet store1 user (dictGetD store1 user [] ++ [line])

/-- Run a sequence of appends for one user. -/
def ctx_append_all (store : List (String × List String)) (user : String)
    (lines : List String) : List (String × List String) :=
  lines.foldl (fun s l => ctx_append s user l) store

/-- The context string handed to the generator for the current turn:
`"\n".join(message_context[key][:-1])`, with the missing-key case reading
as the empty list (telegram routers.py lines 47–50 return `""` for an
unknown key). -/
def render_context (store : List (String × List String)) (user : String) :
    String :=
  String.intercalate "\n" (dictGetD store user []).dropLast

theorem ctx_append_lines (store : List (String × List String))
    (user line : String) :
    dictGetD (ctx_append store user line) user [] =
      dictGetD store user [] ++ [line] := by
  unfold ctx_append
  by_cases h : (dictLookup store user).isNone
  · simp only [h, if_true]
    unfold dictGetD
    rw [dictLookup_dictSet_self, dictLookup_dictSet_self]
    have : dictLookup store user = none := by
      cases hl : dictLookup store user with
      | none => rfl
      | some v => rw [hl] at h; simp at h
    simp [this]
  · simp only [h, if_false]
    unfold dictGetD
    rw [dictLookup_dictSet_self]
    rfl

theorem ctx_append_all_lines (user : String) (lines : List String) :
    ∀ store, dictGetD (ctx_append_all store user lines) user [] =
      dictGetD store user [] ++ lines := by
  induction lines with
  | nil => intro store; simp [ctx_append_all]
  | cons l t ih =>
    intro store
    unfold ctx_append_all
    simp only [List.foldl_cons]
    have := ih (ctx_append store user l)
    unfold ctx_append_all at this
    rw [this, ctx_append_lines]
    simp

/-! ## Outbound length cap (src/whatsapp/utils.py lines 15–22 and
src/platform/whatsapp/utils.py lines 18–25: identical logic) -/

end ContextStore

/-- The body actually dispatched by `send_whatsapp_message`:
`message[:4096 - 3] + "..."` when `len(message) > 4096`, the message
unchanged otherwise. -/
def send_whatsapp_message_body (message : String) : String :=
  if message.length > 4096 then
    String.mk (message.data.take (4096 - 3)) ++ "..."
  else message

end Chatbot

namespace Chatbot

/-! ## Claim theorems: reply routing, context rendering, length cap -/

/-- C1: resolving an outbound id immediately after recording it returns
exactly the recorded text, and resolving an id that was never recorded
returns the empty-string default (total lookup, no exception). -/
theorem reply_routing_round_trip_and_total :
    (∀ (table : List (String × String)) (id text : String),
      ReplyRouting.resolve (ReplyRouting.record table id text) id = text) ∧
    (∀ (table : List (String × String)) (id : String),
      (∀ p ∈ table, p.1 ≠ id) → ReplyRouting.resolve table id = "") := by
  constructor
  · intro table id text
    unfold ReplyRouting.resolve ReplyRouting.record dictGetD
    rw [dictLookup_dictSet_self]
    rfl
  · intro table id h
    unfold ReplyRouting.resolve dictGetD
    rw [dictLookup_absent table id h]
    rfl

set_option maxRecDepth 8192 in
/-- Closed instance of C1: record then resolve on a concrete table, and a
lookup of an unrecorded id. -/
theorem reply_routing_round_trip_and_total_witness :
    ReplyRouting.resolve
        (ReplyRouting.record [("wamid.A", "old")] "wamid.B" "hello") "wamid.B"
      = "hello" ∧
    ((∀ p ∈ [(("wamid.A" : String), ("old" : String))], p.1 ≠ "wamid.Z") ∧
      ReplyRouting.resolve [("wamid.A", "old")] "wamid.Z" = "") := by
  have hne : ∀ p ∈ [(("wamid.A" : String), ("old" : String))],
      p.1 ≠ "wamid.Z" := by decide
  exact ⟨reply_routing_round_trip_and_total.1 _ _ _, hne,
    reply_routing_round_trip_and_total.2 _ _ hne⟩

theorem dropLast_eq_take_pred {α : Type} (l : List α) :
    l.dropLast = l.take (l.length - 1) := by
  induction l with
  | nil => rfl
  | cons a t ih =>
    cases t with
    | nil => rfl
    | cons b u =>
      simp only [List.dropLast_cons₂, List.length_cons, List.take]
      have := ih
      simp only [List.length_cons] at this
      simp [this]

/-- C2: after `N` appended lines for a user (starting from an empty
store), the context handed to the generator is the first `N − 1` lines
joined by a newline, in insertion order; an unknown user renders as the
empty string. -/
theorem render_context_excludes_current_turn :
    (∀ (user : String) (lines : List String),
      ContextStore.render_context
          (ContextStore.ctx_append_all [] user lines) user =
        String.intercalate "\n" (lines.take (lines.length - 1))) ∧
    (∀ user : String, ContextStore.render_context [] user = "") := by
  constructor
  · intro user lines
    unfold ContextStore.render_context
    rw [ContextStore.ctx_append_all_lines]
    simp only [dictGetD, dictLookup, List.find?_nil, Option.map_none,
      Option.getD_none, List.nil_append]
    rw [dropLast_eq_take_pred]
  · intro user
    rfl

/-- C7: a message longer than 4096 characters is dispatched as its first
4093 characters plus the three-character ellipsis marker (total length
4096); a message of length at most 4096 is dispatched unchanged. -/
theorem outbound_length_cap :
    (∀ message : String, message.length > 4096 →
      send_whatsapp_message_body message =
          String.mk (message.data.take 4093) ++ "..." ∧
        (send_whatsapp_message_body message).length = 4096) ∧
    (∀ message : String, message.length ≤ 4096 →
      send_whatsapp_message_body message = message) := by
  constructor
  · intro message h
    refine ⟨by simp [send_whatsapp_message_body, h], ?_⟩
    simp only [send_whatsapp_message_body, h, if_pos]
    rw [String.length_append]
    have h1 : (String.mk (message.data.take (4096 - 3))).length = 4093 := by
      show (message.data.take (4096 - 3)).length = 4093
      rw [List.length_take]
      have : message.data.length > 4096 := h
      omega
    have h2 : ("..." : String).length = 3 := rfl
    omega
  · intro message h
    simp [send_whatsapp_message_body]
    omega

/-- Closed instance of C7 on a 4097-character message and a short
message. -/
theorem outbound_length_cap_witness :
    ((String.mk (List.replicate 4097 'a')).length > 4096 ∧
      (send_whatsapp_message_body (String.mk (List.replicate 4097 'a'))).length
        = 4096) ∧
    (("hi" : String).length ≤ 4096 ∧
      send_whatsapp_message_body "hi" = "hi") := by
  have h : (String.mk (List.replicate 4097 'a')).length > 4096 := by
    show (List.replicate 4097 'a').length > 4096
    rw [List.length_replicate]
    omega
  have h2 : ("hi" : String).length = 2 := rfl
  refine ⟨⟨h, (outbound_length_cap.1 _ h).2⟩, by omega,
    outbound_length_cap.2 "hi" (by omega)⟩

/-! ## Python JSON values

CPython values as delivered by `json.loads` and passed around the
cleaner: `None`, `bool`, `int`, `float` (exact rationals in place of IEEE
doubles), `str`, `list`, `dict`.  Operations that can raise (`.get` on a
non-dict, iteration over a non-iterable, ordering on non-numbers) return
`Except String`; an uncaught error models an uncaught Python
exception. -/

inductive Json where
  | null
  | bool (b : Bool)
  | int (n : Int)
  | float (q : ℚ)
  | str (s : String)
  | arr (elts : List Json)
  | obj (kvs : List (String × Json))

/-- Python exceptions, by name. -/
abbrev Py (α : Type) := Except String α

/-- Numeric value of a Python number (`bool` is an `int` subtype). -/
def numVal? : Json → Option ℚ
  | .int n => some (n : ℚ)
  | .float q => some q
  | .bool b => some (if b then 1 else 0)
  | _ => none

/-! Rational arithmetic through `mkRat` on numerators and denominators.
The Batteries `Rat.add/sub/mul` are `@[irreducible]`, which blocks kernel
evaluation of concrete runs; these wrappers compute the same values (see
`qSub_eq`, `qMul_eq`) and reduce. -/

/-- `a - b` on `ℚ`, kernel-reducible. -/
def qSub (a b : ℚ) : ℚ := mkRat (a.num * b.den - b.num * a.den) (a.den * b.den)

/-- `a * b` on `ℚ`, kernel-reducible. -/
def qMul (a b : ℚ) : ℚ := mkRat (a.num * b.num) (a.den * b.den)

/-- Boolean equality on `ℚ` via the canonical representation. -/
def qBEq (a b : ℚ) : Bool := a.num = b.num && a.den = b.den

mutual

/-- Python `==`, restricted to the value shapes this code compares
(numbers cross-type, strings, `None`, lists elementwise, dicts by key). -/
def pyEq : Json → Json → Bool
  | .str a, .str b => a = b
  | .null, .null => true
  | .arr as, .arr bs => pyEqList as bs
  | .obj as, .obj bs => as.length = bs.length && pyEqObj as bs
  | a, b =>
    match numVal? a, numVal? b with
    | some x, some y => qBEq x y
    | _, _ => false

def pyEqList : List Json → List Json → Bool
  | [], [] => true
  | a :: as, b :: bs => pyEq a b && pyEqList as bs
  | _, _ => false

def pyEqObj : List (String × Json) → List (String × Json) → Bool
  | [], _ => true
  | (k, v) :: t, bs =>
    (match dictLookup bs k with
      | some w => pyEq v w
      | none => false) && pyEqObj t bs

end

/-- Python truthiness. -/
def pyTruthy : Json → Bool
  | .null => false
  | .bool b => b
  | .int n => n ≠ 0
  | .float q => q.num ≠ 0
  | .str s => s ≠ ""
  | .arr xs => !xs.isEmpty
  | .obj kvs => !kvs.isEmpty

/-- `d.get(k, dflt)`: `AttributeError` on a non-dict receiver. -/
def jGetD (j : Json) (k : String) (dflt : Json) : Py Json :=
  match j with
  | .obj kvs => .ok ((dictLookup kvs k).getD dflt)
  | _ => .error "AttributeError"

/-- `d.get(k)` (default `None`). -/
def jGet (j : Json) (k : String) : Py Json := jGetD j k .null

/-- Substring test on character lists (Python `t in s` for strings). -/
def strIn (needle : List Char) : List Char → Bool
  | [] => needle.isEmpty
  | c :: t => needle.isPrefixOf (c :: t) || strIn needle t

/-- Python `x in j` for the receivers this code uses. -/
def pyContains (j x : Json) : Py Bool :=
  match j with
  | .obj kvs =>
    match x with
    | .str s => .ok (kvs.any (fun p => p.1 = s))
    | _ => .ok false
  | .arr xs => .ok (xs.any (fun e => pyEq e x))
  | .str s =>
    match x with
    | .str t => .ok (strIn t.data s.data)
    | _ => .error "TypeError"
  | _ => .error "TypeError"

/-- Python `for _ in j`: lists yield elements, strings yield
one-character strings, dicts yield their keys; anything else raises. -/
def pyIter (j : Json) : Py (List Json) :=
  match j with
  | .arr xs => .ok xs
  | .str s => .ok (s.data.map (fun c => .str (String.mk [c])))
  | .obj kvs => .ok (kvs.map (fun p => .str p.1))
  | _ => .error "TypeError"

/-- Python `len(j)`. -/
def pyLen (j : Json) : Py Nat :=
  match j with
  | .str s => .ok s.length
  | .arr xs => .ok xs.length
  | .obj kvs => .ok kvs.length
  | _ => .error "TypeError"

/-- Python `j[:n]`. -/
def pySlice (j : Json) (n : Nat) : Py Json :=
  match j with
  | .str s => .ok (.str (String.mk (s.data.take n)))
  | .arr xs => .ok (.arr (xs.take n))
  | _ => .error "TypeError"

/-- Python `a + b` for the shapes this code adds. -/
def pyAdd (a b : Json) : Py Json :=
  match a, b with
  | .str s, .str t => .ok (.str (s ++ t))
  | .arr xs, .arr ys => .ok (.arr (xs ++ ys))
  | _, _ => .error "TypeError"

/-- Python `j > 0.5` (`TypeError` for non-numbers, as in CPython). -/
def pyGtHalf (j : Json) : Py Bool :=
  match numVal? j with
  | some q => .ok (Rat.blt (mkRat 1 2) q)
  | none => .error "TypeError"

/-! ## Python number and value printing (`str`/`repr`) -/

/-- Decimal digits of `m` left-padded with zeros to width `k`. -/
def natPad (m k : Nat) : String :=
  let s := toString m
  String.mk (List.replicate (k - s.length) '0') ++ s

/-- `repr` of a CPython float whose value is `q`: the exact decimal
expansion with at least one fractional digit.  (Exact for every value
with a decimal denominator, which covers everything this pipeline
produces; a symbolic fraction stands in for the unreachable rest.) -/
def floatRepr (q : ℚ) : String :=
  let sign := if q < 0 then "-" else ""
  let n := q.num.natAbs
  let d := q.den
  match (List.range 18).find? (fun k => k ≠ 0 && 10 ^ k % d = 0) with
  | some k =>
    let scaled := n * (10 ^ k / d)
    sign ++ toString (scaled / 10 ^ k) ++ "." ++ natPad (scaled % 10 ^ k) k
  | none => sign ++ toString n ++ "/" ++ toString d

/-- `repr` of a CPython str (quote choice as CPython; escaping of quote
characters inside the payload is elided — no claim depends on it). -/
def strRepr (s : String) : String :=
  if s.data.contains '\x27' && !s.data.contains '"' then
    "\"" ++ s ++ "\""
  else "\x27" ++ s ++ "\x27"

mutual

/-- CPython `repr` of a JSON-shaped value. -/
def pyRepr : Json → String
  | .null => "None"
  | .bool b => if b then "True" else "False"
  | .int n => toString n
  | .float q => floatRepr q
  | .str s => strRepr s
  | .arr xs => "[" ++ String.intercalate ", " (pyReprList xs) ++ "]"
  | .obj kvs => "\x7b" ++ String.intercalate ", " (pyReprObj kvs) ++ "\x7d"

def pyReprList : List Json → List String
  | [] => []
  | x :: t => pyRepr x :: pyReprList t

def pyReprObj : List (String × Json) → List String
  | [] => []
  | (k, v) :: t => (strRepr k ++ ": " ++ pyRepr v) :: pyReprObj t

end

/-- CPython `str()` (used by f-string interpolation): the payload for
strings, `repr` for everything else. -/
def pyStr (j : Json) : String :=
  match j with
  | .str s => s
  | _ => pyRepr j

/-! ## Rounding (`round(x, 2)`) -/

/-- Round to the nearest integer, ties to even — CPython `round`.  With
`f = ⌊q⌋` and `r = q − f ∈ [0, 1)`, the fraction `r` compares to `1/2` as
`2·(q.num − f·q.den)` compares to `q.den`. -/
def roundHalfEven (q : ℚ) : ℤ :=
  let f := q.floor
  let rem2 := 2 * (q.num - f * q.den)
  if rem2 < q.den then f
  else if (q.den : ℤ) < rem2 then f + 1
  else if f % 2 = 0 then f else f + 1

/-- `round(q, 2)` on a float value. -/
def round2Q (q : ℚ) : ℚ := mkRat (roundHalfEven (qMul q 100)) 100

/-- `x is None`. -/
def isNull : Json → Bool
  | .null => true
  | _ => false

/-! ## The fact-check result cleaner (src/core/utils/cleaner.py)

`clean_facts` line by line.  The same verdict/confidence expressions
appear verbatim in the stance-detection branch of
src/fact_checker/utils.py (lines 329–337), so `cleaner_final_verdict`
and `cleaner_confidence` embed both occurrences. -/

/-- cleaner.py lines 52–58: `"Uncertain"` unless `finalPrediction` is
non-`None`, then `"Incorrect"` iff it `== 0`. -/
def cleaner_final_verdict (fp : Json) : String :=
  if isNull fp then "Uncertain"
  else if pyEq fp (.int 0) then "Incorrect" else "Correct"

/-- cleaner.py lines 60–64:
`round((1 - (item.get("finalScore") or 0)) * 100, 2)` when the verdict is
`"Incorrect"`, else `round((item.get("finalScore") or 0) * 100, 2)`.
`round` keeps an `int` argument an `int`. -/
def cleaner_confidence (verdict : String) (fs : Json) : Py Json :=
  let score := if pyTruthy fs then fs else Json.int 0
  match score with
  | .float q =>
    .ok (.float (round2Q (if verdict = "Incorrect" then qMul (qSub 1 q) 100
      else qMul q 100)))
  | .int n =>
    .ok (.int (if verdict = "Incorrect" then (1 - n) * 100 else n * 100))
  | .bool b =>
    let n : Int := if b then 1 else 0
    .ok (.int (if verdict = "Incorrect" then (1 - n) * 100 else n * 100))
  | _ => .error "TypeError"

/-- Twenty-four spaces: the indentation of the triple-quoted template. -/
def tmplInd : String := "                        "

/-- cleaner.py lines 111–129: the `strict_formatting` f-string. -/
def strict_formatting_text (claim_text : Json) (final_verdict : String)
    (confidence : Json) (supporting refuting : List Json) : String :=
  "\n" ++ tmplInd ++ "IMPORTANT:\n"
    ++ tmplInd ++ "DO NOT PROVIDE ANY ANALYSIS OR ELABORATION ON THE CLAIM.\n"
    ++ tmplInd ++ "YOU MUST RESPOND IDENTICAL TO THE IDENTICAL PART,\n"
    ++ tmplInd ++ "AND YOU MUST RESPOND NATURALLY TO THE NATURAL PART:\n\n"
    ++ tmplInd ++ "--- IDENTICAL ---\n"
    ++ tmplInd ++ "Claim: " ++ pyStr claim_text ++ "\n"
    ++ tmplInd ++ "Verdict: " ++ final_verdict ++ " (" ++ pyStr confidence
    ++ "% confidence)\n"
    ++ tmplInd ++ "--- IDENTICAL ---\n\n"
    ++ tmplInd ++ "--- NATURAL ---\n"
    ++ tmplInd ++ "URL AND EVIDENCE SNIPPET SUMMARY ONLY (MAX 3):\n"
    ++ tmplInd ++ "- Supporting Evidence: " ++ pyStr (Json.arr supporting)
    ++ " sources\n"
    ++ tmplInd ++ "- Refuting Evidence: " ++ pyStr (Json.arr refuting)
    ++ " sources\n\n"
    ++ tmplInd ++ "End with an encouraging ending\n"
    ++ tmplInd ++ "--- NATURAL ---\n" ++ tmplInd

/-- cleaner.py lines 69–106: one pass of the evidence loop, threading the
`(supporting_evidence, refuting_evidence)` accumulators. -/
def clean_ev_step (acc : List Json × List Json) (evidence : Json) :
    Py (List Json × List Json) := do
  if isNull evidence then return acc
  let label ← jGetD evidence "labelDescription" (.str "")
  if !(pyEq label (.str "SUPPORTS") || pyEq label (.str "REFUTES")) then
    return acc
  let sim_score ← jGetD evidence "simScore" (.int 0)
  let gt ← pyGtHalf sim_score
  let evidence_snippet ←
    if gt then do
      let snippet ← jGetD evidence "evidenceSnippet" (.str "")
      if isNull snippet then pure (Json.str "")
      else do
        let n ← pyLen snippet
        if n > 1000 then do
          let sl ← pySlice snippet 1000
          pyAdd sl (Json.str "...")
        else pure snippet
    else pure (Json.str "")
  let dr0 ← jGetD evidence "domain_reliability" (.obj [])
  let dr := if pyTruthy dr0 then dr0 else Json.obj []
  let reliability ← jGetD dr "Reliability" (.str "Unknown")
  let domain_name ← jGetD evidence "domainName" (.str "")
  let url ← jGetD evidence "url" (.str "")
  let entry := Json.obj [("labelDescription", label),
    ("domain_name", domain_name), ("domainReliability", reliability),
    ("url", url), ("evidenceSnippet", evidence_snippet)]
  if pyEq label (.str "SUPPORTS") then return (acc.1 ++ [entry], acc.2)
  else return (acc.1, acc.2 ++ [entry])

/-- cleaner.py lines 27–143: the body of the item loop; `none` models
`continue`. -/
def clean_item (item : Json) : Py (Option Json) := do
  if isNull item then return none
  let evidence_list ← jGetD item "evidence" (.arr [])
  if !(pyTruthy evidence_list) then return none
  let claim0 ← jGetD item "claim" (.str "")
  let claim_text ←
    if isNull claim0 then pure Json.null
    else match claim0 with
      | .str s => pure (Json.str (replaceChar s '"' "\x27"))
      | _ => Except.error "AttributeError"
  let summary0 ← jGetD item "summary" (.str "")
  let summary ←
    if isNull summary0 then pure Json.null
    else match summary0 with
      | .arr xs =>
        let joined := String.intercalate " "
          ((xs.filter (fun s => !(isNull s))).map pyStr)
        pure (Json.str (if joined ≠ "" then replaceChar joined '"' "\x27"
          else joined))
      | .str s => pure (Json.str (replaceChar s '"' "\x27"))
      | other => pure other
  let fix0 ← jGetD item "fix" (.str "")
  let fix ←
    if isNull fix0 then pure Json.null
    else match fix0 with
      | .str s => pure (Json.str (replaceChar s '"' "\x27"))
      | _ => Except.error "AttributeError"
  let fpj ← jGet item "finalPrediction"
  let final_verdict := cleaner_final_verdict fpj
  let fsj ← jGet item "finalScore"
  let confidence ← cleaner_confidence final_verdict fsj
  let evL ← pyIter evidence_list
  let acc ← evL.foldlM clean_ev_step ([], [])
  if !(pyTruthy summary) && !(pyTruthy fix) then
    return some (Json.obj [("strict_formatting",
      Json.str (strict_formatting_text claim_text final_verdict confidence
        acc.1 acc.2))])
  else
    return some (Json.obj [("claim", claim_text),
      ("verdict", Json.str final_verdict),
      ("confidence_percentage", confidence),
      ("summary", summary), ("fix", fix),
      ("supporting_evidence", Json.arr acc.1),
      ("refuting_evidence", Json.arr acc.2)])

/-- cleaner.py lines 17–21: `"collection" in json_data and
json_data.get("collection") == "stance_detection"`. -/
def stance_condition (json_data : Json) : Py Bool := do
  let c ← pyContains json_data (.str "collection")
  if c then do
    let v ← jGet json_data "collection"
    pure (pyEq v (.str "stance_detection"))
  else pure false

/-- The body of the `try` block of `clean_facts` (cleaner.py
lines 15–146); an `Except.error` is a Python exception reaching the
`except` clause. -/
def clean_facts_core (json_data : Json) : Py (List Json) := do
  let stance ← stance_condition json_data
  let items ←
    if stance then pure (some [json_data])
    else do
      let t ← jGetD json_data "text" (.arr [])
      if isNull t then pure none
      else do
        let l ← pyIter t
        pure (some l)
  match items with
  | none => pure []
  | some itemsL =>
    itemsL.foldlM (fun acc item => do
      match ← clean_item item with
      | none => pure acc
      | some r => pure (acc ++ [r])) []

/-- cleaner.py lines 8–150: `clean_facts`. -/
def clean_facts (json_data : Json) : List Json :=
  if isNull json_data then []
  else match clean_facts_core json_data with
    | .ok l => l
    | .error _ => []

@[simp] theorem py_bind_ok {α β : Type} (a : α) (f : α → Py β) :
    (Except.ok a >>= f : Py β) = f a := rfl

@[simp] theorem py_bind_err {α β : Type} (e : String) (f : α → Py β) :
    (Except.error e >>= f : Py β) = Except.error e := rfl

@[simp] theorem py_pure {α : Type} (a : α) :
    (pure a : Py α) = Except.ok a := rfl

/-! ## Bridging lemmas for the kernel-reducible rational operations -/

theorem qMul_eq (a b : ℚ) : qMul a b = a * b := by
  rw [qMul, Rat.mkRat_eq_div]
  push_cast
  rw [mul_div_mul_comm, Rat.num_div_den, Rat.num_div_den]

theorem qSub_eq (a b : ℚ) : qSub a b = a - b := by
  have ha : ((a.den : ℚ)) ≠ 0 := by
    exact_mod_cast a.den_nz
  have hb : ((b.den : ℚ)) ≠ 0 := by
    exact_mod_cast b.den_nz
  rw [qSub, Rat.mkRat_eq_div]
  push_cast
  rw [sub_div]
  have h1 : ((a.num : ℚ) * b.den) / (a.den * b.den) = a.num / a.den := by
    rw [mul_div_mul_right _ _ hb]
  have h2 : ((b.num : ℚ) * a.den) / (a.den * b.den) = b.num / b.den := by
    rw [mul_comm ((a.den : ℚ)) ((b.den : ℚ)), mul_div_mul_right _ _ ha]
  rw [h1, h2, Rat.num_div_den, Rat.num_div_den]

theorem roundHalfEven_intCast (k : ℤ) : roundHalfEven (k : ℚ) = k := by
  have hfl : ((k : ℚ)).floor = k := by
    have : ((k : ℚ)).floor = ⌊(k : ℚ)⌋ := rfl
    rw [this, Int.floor_intCast]
  simp only [roundHalfEven, hfl, Rat.num_intCast, Rat.den_intCast]
  norm_num

theorem round2Q_intCast (k : ℤ) : round2Q (k : ℚ) = (k : ℚ) := by
  have h1 : qMul (k : ℚ) 100 = ((k * 100 : ℤ) : ℚ) := by
    rw [qMul_eq]
    push_cast
    ring
  rw [round2Q, h1, roundHalfEven_intCast, Rat.mkRat_eq_div]
  push_cast
  field_simp

end Chatbot

namespace Chatbot

/-! ## C8: the message normalizer (src/whatsapp/routers.py lines 87–107;
src/platform/telegram/routers.py lines 103–121: identical logic)

Unicode NFKD itself is the `unicodedata` library call, an external
collaborator; it enters the model as the function parameter `nfkd`, and
the theorem holds for every choice of it. -/

/-- The `replacements` table of routers.py lines 93–102, in its insertion
(= application) order. -/
def text_replacements : List (Char × String) :=
  [('\xa0', " "), ('‘', "\x27"), ('’', "\x27"),
    ('“', "\""), ('”', "\""), ('–', "-"),
    ('—', "--"), ('…', "...")]

/-- The `for char, replacement in replacements.items()` loop. -/
def apply_replacements (s : String) : String :=
  text_replacements.foldl (fun acc p => replaceChar acc p.1 p.2) s

/-- routers.py lines 87–107:
`unicodedata.normalize("NFKD", raw).replace('"', "'").strip()` followed
by the replacement loop. -/
def normalize_message (nfkd : String → String) (raw : String) : String :=
  apply_replacements (pyStrip (replaceChar (nfkd raw) '"' "\x27"))

theorem mem_replaceCharL {x : Char} {l : List Char} {c : Char}
    {r : List Char} (h : x ∈ replaceCharL l c r) : x ∈ r ∨ x ∈ l := by
  unfold replaceCharL at h
  rcases List.mem_flatMap.1 h with ⟨ch, hch, hx⟩
  by_cases hc : ch = c
  · rw [if_pos hc] at hx
    exact Or.inl hx
  · rw [if_neg hc] at hx
    rcases List.mem_singleton.1 hx with rfl
    exact Or.inr hch

theorem not_mem_replaceCharL_self {l : List Char} {c : Char}
    {r : List Char} (hcr : c ∉ r) : c ∉ replaceCharL l c r := by
  intro h
  unfold replaceCharL at h
  rcases List.mem_flatMap.1 h with ⟨ch, _, hx⟩
  by_cases hc : ch = c
  · rw [if_pos hc] at hx
    exact hcr hx
  · rw [if_neg hc] at hx
    exact hc (List.mem_singleton.1 hx).symm

theorem foldl_replace_preserves_not_mem (c : Char)
    (steps : List (Char × String)) (hsteps : ∀ p ∈ steps, c ∉ p.2.data) :
    ∀ s : String, c ∉ s.data →
      c ∉ (steps.foldl (fun acc p => replaceChar acc p.1 p.2) s).data := by
  induction steps with
  | nil => intro s hs; exact hs
  | cons p t ih =>
    intro s hs
    simp only [List.foldl_cons]
    refine ih (fun q hq => hsteps q (by simp [hq])) _ ?_
    intro hmem
    rcases mem_replaceCharL hmem with h | h
    · exact hsteps p (by simp) h
    · exact hs h

theorem apply_replacements_not_mem (c : Char)
    (pre : List (Char × String)) (r : String) (post : List (Char × String))
    (hsplit : text_replacements = pre ++ (c, r) :: post)
    (hcr : c ∉ r.data) (hpost : ∀ p ∈ post, c ∉ p.2.data) :
    ∀ s : String, c ∉ (apply_replacements s).data := by
  intro s
  unfold apply_replacements
  rw [hsplit, List.foldl_append, List.foldl_cons]
  exact foldl_replace_preserves_not_mem c post hpost _
    (not_mem_replaceCharL_self hcr)

/-- C8: the normalizer is a total pure pipeline (NFKD, double-quote
replacement, strip, the fixed typographic-replacement table), and after
it no character from the table's domain — in particular no raw curly
quote — remains in the output; the spec's example input normalizes with
the curly quotes substituted. -/
theorem normalize_message_no_typographic_chars :
    (∀ (nfkd : String → String) (raw : String),
      '‘' ∉ (normalize_message nfkd raw).data ∧
      '’' ∉ (normalize_message nfkd raw).data ∧
      '“' ∉ (normalize_message nfkd raw).data ∧
      '”' ∉ (normalize_message nfkd raw).data ∧
      '\xa0' ∉ (normalize_message nfkd raw).data ∧
      '–' ∉ (normalize_message nfkd raw).data ∧
      '—' ∉ (normalize_message nfkd raw).data ∧
      '…' ∉ (normalize_message nfkd raw).data) ∧
    normalize_message id "café’s “best”" =
      "café\x27s \"best\"" := by
  constructor
  · intro nfkd raw
    refine ⟨?_, ?_, ?_, ?_, ?_, ?_, ?_, ?_⟩
    · exact apply_replacements_not_mem _ [('\xa0', " ")] "\x27"
        [('’', "\x27"), ('“', "\""), ('”', "\""),
          ('–', "-"), ('—', "--"), ('…', "...")]
        (by decide) (by decide) (by decide) _
    · exact apply_replacements_not_mem _
        [('\xa0', " "), ('‘', "\x27")] "\x27"
        [('“', "\""), ('”', "\""), ('–', "-"),
          ('—', "--"), ('…', "...")]
        (by decide) (by decide) (by decide) _
    · exact apply_replacements_not_mem _
        [('\xa0', " "), ('‘', "\x27"), ('’', "\x27")] "\""
        [('”', "\""), ('–', "-"), ('—', "--"),
          ('…', "...")]
        (by decide) (by decide) (by decide) _
    · exact apply_replacements_not_mem _
        [('\xa0', " "), ('‘', "\x27"), ('’', "\x27"),
          ('“', "\"")] "\""
        [('–', "-"), ('—', "--"), ('…', "...")]
        (by decide) (by decide) (by decide) _
    · exact apply_replacements_not_mem _ [] " "
        [('‘', "\x27"), ('’', "\x27"), ('“', "\""),
          ('”', "\""), ('–', "-"), ('—', "--"),
          ('…', "...")]
        (by decide) (by decide) (by decide) _
    · exact apply_replacements_not_mem _
        [('\xa0', " "), ('‘', "\x27"), ('’', "\x27"),
          ('“', "\""), ('”', "\"")] "-"
        [('—', "--"), ('…', "...")]
        (by decide) (by decide) (by decide) _
    · exact apply_replacements_not_mem _
        [('\xa0', " "), ('‘', "\x27"), ('’', "\x27"),
          ('“', "\""), ('”', "\""), ('–', "-")] "--"
        [('…', "...")]
        (by decide) (by decide) (by decide) _
    · exact apply_replacements_not_mem _
        [('\xa0', " "), ('‘', "\x27"), ('’', "\x27"),
          ('“', "\""), ('”', "\""), ('–', "-"),
          ('—', "--")] "..."
        [] (by decide) (by decide) (by decide) _
  · rfl

/-! ## A model of `json.loads`

Recursive-descent over the JSON grammar (RFC 8259): values, objects,
arrays, strings with escapes, numbers with fraction and exponent,
`true`/`false`/`null`; `none` models `json.JSONDecodeError`.  Fuel bounds
the recursion; `s.length + 2` exceeds every possible number of descent
steps for an input of length `s.length`. -/

/-- JSON insignificant whitespace. -/
def skipWs (l : List Char) : List Char :=
  l.dropWhile (fun c => c = ' ' || c = '\t' || c = '\n' || c = '\r')

/-- Value of one hexadecimal digit, by code point arithmetic. -/
def hexDigit (c : Char) : Option Nat :=
  let n := c.toNat
  if 47 < n && n < 58 then some (n - 48)
  else if 96 < n && n < 103 then some (n - 87)
  else if 64 < n && n < 71 then some (n - 55)
  else none

/-- Value of a run of hexadecimal digits, most significant first. -/
def hexRun (l : List Char) : Option Nat :=
  l.foldlM (fun acc c => (hexDigit c).map (fun v => 16 * acc + v)) 0

/-- Decimal digit test by code point. -/
def isDig (c : Char) : Bool := 47 < c.toNat && c.toNat < 58

/-- Digits to a natural number, most significant first. -/
def digitsToNat (ds : List Char) : Nat :=
  ds.foldl (fun acc c => 10 * acc + (c.toNat - 48)) 0

/-- The single-character JSON escapes. -/
def escChar (e : Char) : Option Char :=
  if e = '"' || e = '\\' || e = '/' then some e
  else if e = 'n' then some '\n'
  else if e = 't' then some '\t'
  else if e = 'r' then some '\r'
  else if e = 'b' then some '\x08'
  else if e = 'f' then some '\x0c'
  else none

/-- Body of a JSON string after the opening quote: returns the decoded
characters and the remainder after the closing quote. -/
def parseStrChars : List Char → Option (List Char × List Char)
  | [] => none
  | '"' :: rest => some ([], rest)
  | '\\' :: 'u' :: q1 :: q2 :: q3 :: q4 :: rest =>
    match hexRun [q1, q2, q3, q4] with
    | some v =>
      (parseStrChars rest).map (fun p => (Char.ofNat v :: p.1, p.2))
    | none => none
  | '\\' :: e :: rest =>
    match escChar e with
    | some c => (parseStrChars rest).map (fun p => (c :: p.1, p.2))
    | none => none
  | c :: rest => (parseStrChars rest).map (fun p => (c :: p.1, p.2))

/-- A JSON number starting at the head of the input. -/
def parseNumber (l : List Char) : Option (Json × List Char) :=
  let (neg, l1) := match l with
    | '-' :: t => (true, t)
    | _ => (false, l)
  let ds := l1.takeWhile isDig
  let r1 := l1.dropWhile isDig
  if ds.isEmpty then none
  else
    let ip : Nat := digitsToNat ds
    let (fracDs, r2) := match r1 with
      | '.' :: t => (t.takeWhile isDig, t.dropWhile isDig)
      | _ => ([], r1)
    if r1.head? = some '.' && fracDs.isEmpty then none
    else
      let (hasExp, expNeg, expDs, r3) := match r2 with
        | 'e' :: '-' :: t => (true, true, t.takeWhile isDig, t.dropWhile isDig)
        | 'e' :: '+' :: t => (true, false, t.takeWhile isDig, t.dropWhile isDig)
        | 'e' :: t => (true, false, t.takeWhile isDig, t.dropWhile isDig)
        | 'E' :: '-' :: t => (true, true, t.takeWhile isDig, t.dropWhile isDig)
        | 'E' :: '+' :: t => (true, false, t.takeWhile isDig, t.dropWhile isDig)
        | 'E' :: t => (true, false, t.takeWhile isDig, t.dropWhile isDig)
        | _ => (false, false, [], r2)
      if hasExp && expDs.isEmpty then none
      else
        let mantNum : Int := (ip * 10 ^ fracDs.length + digitsToNat fracDs : Nat)
        let mantNum := if neg then -mantNum else mantNum
        let e : Nat := digitsToNat expDs
        let isFloat := (r1.head? = some '.') || hasExp
        if isFloat then
          let v : ℚ :=
            if expNeg then mkRat mantNum (10 ^ fracDs.length * 10 ^ e)
            else mkRat (mantNum * 10 ^ e) (10 ^ fracDs.length)
          some (.float v, r3)
        else
          some (.int mantNum, r3)

mutual

/-- One JSON value starting at the head (after whitespace). -/
def parseJsonVal : Nat → List Char → Option (Json × List Char)
  | 0, _ => none
  | fuel + 1, l =>
    match skipWs l with
    | 'n' :: 'u' :: 'l' :: 'l' :: rest => some (.null, rest)
    | 't' :: 'r' :: 'u' :: 'e' :: rest => some (.bool true, rest)
    | 'f' :: 'a' :: 'l' :: 's' :: 'e' :: rest => some (.bool false, rest)
    | '"' :: rest =>
      (parseStrChars rest).map (fun p => (.str (String.mk p.1), p.2))
    | '[' :: rest =>
      match skipWs rest with
      | ']' :: r2 => some (.arr [], r2)
      | r2 => parseArrElems fuel r2 []
    | '\x7b' :: rest =>
      match skipWs rest with
      | '\x7d' :: r2 => some (.obj [], r2)
      | r2 => parseObjElems fuel r2 []
    | rest => parseNumber rest

/-- Comma-separated array elements up to the closing bracket. -/
def parseArrElems : Nat → List Char → List Json → Option (Json × List Char)
  | 0, _, _ => none
  | fuel + 1, l, acc =>
    match parseJsonVal fuel l with
    | none => none
    | some (v, r) =>
      match skipWs r with
      | ',' :: r2 => parseArrElems fuel r2 (acc ++ [v])
      | ']' :: r2 => some (.arr (acc ++ [v]), r2)
      | _ => none

/-- Comma-separated `"key": value` members up to the closing brace. -/
def parseObjElems : Nat → List Char →
    List (String × Json) → Option (Json × List Char)
  | 0, _, _ => none
  | fuel + 1, l, acc =>
    match skipWs l with
    | '"' :: rest =>
      match parseStrChars rest with
      | none => none
      | some (k, r) =>
        match skipWs r with
        | ':' :: r2 =>
          match parseJsonVal fuel r2 with
          | none => none
          | some (v, r3) =>
            match skipWs r3 with
            | ',' :: r4 => parseObjElems fuel r4 (acc ++ [(String.mk k, v)])
            | '\x7d' :: r4 => some (.obj (acc ++ [(String.mk k, v)]), r4)
            | _ => none
        | _ => none
    | _ => none

end

/-- `json.loads`: parse one value and allow only trailing whitespace. -/
def json_loads (s : String) : Option Json :=
  match parseJsonVal (s.data.length + 2) s.data with
  | some (v, rest) => if (skipWs rest).isEmpty then some v else none
  | none => none

/-! ## C4: the classifier fallback in the two `detect_intent` revisions -/

/-- src/intent/utils.py lines 38–44: the `except json.JSONDecodeError`
fallback dictionary. -/
def intent_fallback_whatsapp : Json :=
  Json.obj [("intent_type", Json.str "fact_check"),
    ("confidence", Json.float (mkRat 7 10)),
    ("sentiment", Json.str "neutral"),
    ("context_reference", Json.bool false),
    ("url_present", Json.bool false)]

/-- src/intent/utils.py lines 33–44: `json.loads` the generator response,
falling back on a decode error.  The generator call itself is the oracle
input `intent_response`. -/
def detect_intent_whatsapp (intent_response : String) : Json :=
  match json_loads intent_response with
  | some d => d
  | none => intent_fallback_whatsapp

/-- src/core/utils/intent.py lines 29–35: same structure, but the
fallback is `{"intent_type": "general"}`. -/
def detect_intent_core_of (intent_response : String) : Json :=
  match json_loads intent_response with
  | some d => d
  | none => Json.obj [("intent_type", Json.str "general")]

/-- src/whatsapp/routers.py line 275:
`claims = split_claims if split_claims else [message_text]` with
`split_claims = intent_data.get("split_claims")`. -/
def claims_from_intent (intent_data : Json) (message_text : String) :
    Py Json := do
  let sc ← jGet intent_data "split_claims"
  pure (if pyTruthy sc then sc else Json.arr [Json.str message_text])

/-- Sanity: the embedded `json.loads` parses a classifier reply. -/
theorem json_loads_parses_object :
    json_loads "\x7b\"intent_type\": \"general\", \"confidence\": 0.7\x7d" =
      some (Json.obj [("intent_type", Json.str "general"),
        ("confidence", Json.float (mkRat 7 10))]) := rfl

/-- C4 counterexample: on the unparseable classifier reply `"not json"`,
the core revision's `detect_intent` (src/core/utils/intent.py) returns
intent type `general`, not `fact_check` as the claim states for every
`detect_intent`. -/
theorem detect_intent_fallback_counterexample :
    json_loads "not json" = none ∧
    detect_intent_core_of "not json" =
      Json.obj [("intent_type", Json.str "general")] ∧
    jGet (detect_intent_core_of "not json") "intent_type" ≠
      .ok (Json.str "fact_check") := by
  refine ⟨rfl, rfl, ?_⟩
  intro h
  have h2 : (Except.ok (Json.str "general") : Py Json) =
      .ok (Json.str "fact_check") := h
  have h3 : "general" = "fact_check" := Json.str.inj (Except.ok.inj h2)
  exact absurd h3 (by decide)

/-- C4 (amended): for every generator response that is not parseable
JSON, `detect_intent` returns a fallback dictionary rather than raising;
in the src/intent/utils.py revision the fallback intent type is
`fact_check` and the router then treats the whole message as the single
claim, while in the src/core/utils/intent.py revision the fallback intent
type is `general`. -/
theorem detect_intent_fallback (r m : String) (h : json_loads r = none) :
    detect_intent_whatsapp r = intent_fallback_whatsapp ∧
    jGetD (detect_intent_whatsapp r) "intent_type" (.str "fact_check") =
      .ok (Json.str "fact_check") ∧
    claims_from_intent (detect_intent_whatsapp r) m =
      .ok (Json.arr [Json.str m]) ∧
    jGet (detect_intent_core_of r) "intent_type" =
      .ok (Json.str "general") := by
  refine ⟨?_, ?_, ?_, ?_⟩ <;>
    simp [detect_intent_whatsapp, detect_intent_core_of, h,
      intent_fallback_whatsapp, jGetD, jGet, dictLookup, claims_from_intent,
      pyTruthy]

/-- Closed instance of C4 (amended) at the spec's example reply. -/
theorem detect_intent_fallback_witness :
    json_loads "not json" = none ∧
    (detect_intent_whatsapp "not json" = intent_fallback_whatsapp ∧
      jGetD (detect_intent_whatsapp "not json") "intent_type"
        (.str "fact_check") = .ok (Json.str "fact_check") ∧
      claims_from_intent (detect_intent_whatsapp "not json") "Hello" =
        .ok (Json.arr [Json.str "Hello"]) ∧
      jGet (detect_intent_core_of "not json") "intent_type" =
        .ok (Json.str "general")) :=
  ⟨rfl, detect_intent_fallback "not json" "Hello" rfl⟩

/-! ## External collaborators

Every HTTP call (the Factiverse endpoints, the generator, the platform
send APIs), the prompt catalogue of src/core/config (absent from this
snapshot), and the random button-id stream enter the model as oracle
fields; the `Nat` index of `rand5` counts successive
`random.choices(..., k=5)` calls inside one suggestion batch. -/

structure Env where
  fact_check : String → Py Json
  stance_detection : String → Py Json
  generate : String → String → Py String
  detect_claims : String → Py (List String)
  get_prompt : String → String → String → String
  rand5 : Nat → String
  send_text : String → String → String → Py Json
  send_buttons : String → String → List (String × String) → String → Py Json
  send_rating : String → String → String → Py Json
  send_tg : String → String → String → Py Json

/-- Observable actions of one request, in program order. -/
inductive Event where
  | recordButton (id claim : String)
  | sendText (phone body reply_to : String)
  | sendButtons (phone body : String) (buttons : List (String × String))
      (reply_to : String)
  | sendRating (phone message_id response : String)
  | sendTelegram (chat_id message_id response : String)

/-! ## URL detection: `re.findall(r"https?://\S+", message_text)`
(src/core/handlers/handlers.py line 45) -/

/-- Length of the matched scheme prefix at the head, if any. -/
def urlPrefix (l : List Char) : Option Nat :=
  if "https://".data.isPrefixOf l then some 8
  else if "http://".data.isPrefixOf l then some 7
  else none

theorem length_dropWhile_le {α : Type} (p : α → Bool) (l : List α) :
    (l.dropWhile p).length ≤ l.length := by
  induction l with
  | nil => simp
  | cons a t ih =>
    by_cases h : p a
    · simp only [List.dropWhile_cons, h, if_true]
      exact le_trans ih (by simp)
    · simp [List.dropWhile_cons, h]

/-- Left-to-right non-overlapping scan for `https?://\S+`: at a match the
whole maximal run of non-whitespace characters starting at the scheme is
taken (the regex is greedy) and the scan resumes after it.  The fuel is
structural; every step consumes at least one character, so any fuel
beyond the input length is enough. -/
def findUrlsAux : Nat → List Char → List (List Char)
  | 0, _ => []
  | _, [] => []
  | fuel + 1, c :: t =>
    match urlPrefix (c :: t) with
    | some n =>
      if ((c :: t).drop n).takeWhile (fun ch => !isPySpace ch) ≠ [] then
        (c :: t).takeWhile (fun ch => !isPySpace ch) ::
          findUrlsAux fuel (t.dropWhile (fun ch => !isPySpace ch))
      else findUrlsAux fuel t
    | none => findUrlsAux fuel t

/-- `re.findall(r"https?://\S+", s)`. -/
def findUrls (s : String) : List String :=
  (findUrlsAux (s.data.length + 1) s.data).map String.mk

/-- Concatenation of a list of strings, definitionally unfolding on
`cons`. -/
def strConcat (l : List String) : String := l.foldr (fun a b => a ++ b) ""

/-! ## Core handlers (src/core/handlers/handlers.py) -/

/-- handlers.py lines 246–300: build the fact-check prompt and the
aggregate evidence text.  URL evidence accumulates first (an exception
there propagates, lines 262–267); claim stance-detection calls fan out
with `asyncio.gather(..., return_exceptions=True)` and the loop skips the
results that are exceptions (lines 269–292). -/
def handle_fact_check_intent (env : Env) (message_text context : String)
    (claims : List String) (urls : List String) : Py (String × String) := do
  let urlsText ← urls.foldlM (fun acc url => do
      let fact_results ← env.fact_check url
      let evidence := clean_facts fact_results
      pure (acc ++ pyStr (Json.arr evidence) ++ "\n")) ""
  let final_evidence_text :=
    if !claims.isEmpty then
      (claims.map env.stance_detection).foldl (fun acc result =>
        match result with
        | .error _ => acc
        | .ok r => acc ++ pyStr (Json.arr (clean_facts r)) ++ "\n") urlsText
    else urlsText
  pure (env.get_prompt "fact_check" message_text context, final_evidence_text)

/-- Matches `Claim \d+: (.*)` at the head of the line, returning the
capture. -/
def matchClaimAt (l : List Char) : Option (List Char) :=
  match l with
  | 'C' :: 'l' :: 'a' :: 'i' :: 'm' :: ' ' :: rest =>
    let ds := rest.takeWhile isDig
    let r := rest.dropWhile isDig
    if ds.isEmpty then none
    else match r with
      | ':' :: ' ' :: cap => some cap
      | _ => none
  | _ => none

/-- `re.search`: first position where the claim pattern matches. -/
def searchClaim : List Char → Option (List Char)
  | [] => none
  | c :: t =>
    match matchClaimAt (c :: t) with
    | some cap => some cap
    | none => searchClaim t

/-- handlers.py lines 222–227: lines starting with `"Claim "` whose
`Claim \d+: (.*)` capture, stripped. -/
def extract_suggested_claims (response : String) : List String :=
  (response.data.splitOn '\n').filterMap (fun line =>
    if "Claim ".data.isPrefixOf line then
      (searchClaim line).map (fun cap => String.mk (pyStripL cap))
    else none)

/-- handlers.py lines 200–243: generate up to-`n` claim rephrasings,
assign each a 5-character random id, and return
`(buttons, btn_id_to_claim, response)`; any exception inside is caught
and yields `([], {}, apology)`. -/
def handle_claim_suggestions (env : Env) (message_text context : String) :
    List (String × String) × List (String × String) × String :=
  match env.generate (env.get_prompt "claim_suggestion" message_text context)
      message_text with
  | .error _ => ([], [], "⚠️ Temporary service issue. Please try again!")
  | .ok response =>
    let claims := extract_suggested_claims response
    (claims.enum.map (fun p => (env.rand5 p.1, "Claim " ++ toString (p.1 + 1))),
      claims.enum.foldl (fun d p => dictSet d (env.rand5 p.1) p.2) [],
      response)

/-- handlers.py lines 303–310. -/
def handle_general_intent (env : Env) (message_text context : String) :
    Py String :=
  env.generate (env.get_prompt "general" message_text context) message_text

/-- src/core/utils/intent.py within the dispatcher: the generator call
followed by the parse-or-fallback step. -/
def detect_intent_env (env : Env) (message_text context : String) : Py Json := do
  let r ← env.generate (env.get_prompt "intent_detection" message_text context)
    message_text
  pure (detect_intent_core_of r)

/-- The dispatcher's `Union[str, Tuple[buttons, btn_id_to_claim,
response], None]` result. -/
inductive DispatchResult where
  | suggestion (data :
      List (String × String) × List (String × String) × String)
  | text (response : String)
  | noResponse

/-- Fixed apology of the dispatcher's internal `except` clauses. -/
def apologyText : String := "⚠️ Temporary service issue. Please try again!"

/-- handlers.py lines 32–146: the claim/intent dispatcher.  An
`Except.error` models an exception escaping the function (the
`detect_claims`/`detect_intent` calls sit outside every `try`). -/
def handle_message_with_intent (env : Env) (message_text context : String) :
    Py DispatchResult := do
  let urls := findUrls message_text
  let message_length := pySplitCount message_text
  if !urls.isEmpty then
    match handle_fact_check_intent env message_text context [] urls with
    | .ok (prompt, evidence_data) =>
      if pyStrip evidence_data = "[]" then
        pure (.suggestion (handle_claim_suggestions env message_text context))
      else
        match env.generate prompt evidence_data with
        | .ok r => pure (.text r)
        | .error _ => pure (.text apologyText)
    | .error _ => pure (.text apologyText)
  else if message_length ≥ 100 then do
    let claims ← env.detect_claims message_text
    if claims.isEmpty then do
      let r ← handle_general_intent env message_text context
      pure (.text r)
    else
      match handle_fact_check_intent env message_text context claims [] with
      | .ok (prompt, evidence_data) =>
        if pyStrip evidence_data = "[]" then
          pure (.suggestion (handle_claim_suggestions env message_text context))
        else
          match env.generate prompt evidence_data with
          | .ok r => pure (.text r)
          | .error _ => pure (.text apologyText)
      | .error _ => pure (.text apologyText)
  else do
    let intent_data ← detect_intent_env env message_text context
    let intent_type ← jGet intent_data "intent_type"
    let split_claims ← jGet intent_data "split_claims"
    if pyEq intent_type (.str "fact_check") then
      match (do
          let claimsJ := if pyTruthy split_claims then split_claims
            else Json.arr [Json.str message_text]
          let claimItems ← pyIter claimsJ
          handle_fact_check_intent env message_text context
            (claimItems.map pyStr) [] : Py (String × String)) with
      | .ok (prompt, evidence_data) =>
        if pyStrip evidence_data = "[]" then
          pure (.suggestion (handle_claim_suggestions env message_text context))
        else
          match env.generate prompt evidence_data with
          | .ok r => pure (.text r)
          | .error _ => pure (.text apologyText)
      | .error _ => pure (.text apologyText)
    else if pyEq intent_type (.str "general") then
      match handle_general_intent env message_text context with
      | .ok r => pure (.text r)
      | .error _ => pure (.text apologyText)
    else
      pure (.suggestion (handle_claim_suggestions env message_text context))

/-! ## C3: partial-failure isolation in the claim fan-out -/

theorem evidence_foldl_join (rs : List (Py Json)) :
    ∀ acc : String,
      rs.foldl (fun acc result =>
        match result with
        | .error _ => acc
        | .ok r => acc ++ pyStr (Json.arr (clean_facts r)) ++ "\n") acc =
      acc ++ strConcat (rs.filterMap (fun result =>
        match result with
        | .ok r => some (pyStr (Json.arr (clean_facts r)) ++ "\n")
        | .error _ => none)) := by
  induction rs with
  | nil => intro acc; simp [strConcat]
  | cons r t ih =>
    intro acc
    cases r with
    | error e => simpa [strConcat] using ih acc
    | ok v =>
      simp only [List.foldl_cons, List.filterMap_cons]
      rw [ih]
      simp [strConcat, String.append_assoc]

/-- C3: for every list of claims, the aggregate evidence text is exactly
the concatenation, in order, of the cleaned results of the successful
stance-detection calls — a claim whose call raises is skipped, and the
batch always completes (the result is `ok`, never an error). -/
theorem fact_check_partial_failure_isolation (env : Env)
    (message_text context : String) (claims : List String) :
    handle_fact_check_intent env message_text context claims [] =
      .ok (env.get_prompt "fact_check" message_text context,
        strConcat ((claims.map env.stance_detection).filterMap
          (fun result =>
            match result with
            | .ok r => some (pyStr (Json.arr (clean_facts r)) ++ "\n")
            | .error _ => none))) := by
  unfold handle_fact_check_intent
  simp only [List.foldlM_nil, py_bind_ok, py_pure]
  cases hc : claims with
  | nil => simp [strConcat]
  | cons a t =>
    simp only [List.isEmpty_cons, Bool.not_false, if_true]
    rw [evidence_foldl_join]
    simp

/-! ## C5: empty URL evidence routes to Suggest -/

/-- C5: when the inbound message contains an HTTP(S) URL and the
fact-check pass over its URLs produces cleaned evidence text that strips
to the empty list `"[]"`, the dispatcher returns the claim-suggestion
data — the Suggest transition — and not an error response. -/
theorem url_empty_evidence_suggests (env : Env)
    (message_text context prompt evidence_data : String)
    (hu : findUrls message_text ≠ [])
    (hf : handle_fact_check_intent env message_text context []
      (findUrls message_text) = .ok (prompt, evidence_data))
    (he : pyStrip evidence_data = "[]") :
    handle_message_with_intent env message_text context =
      .ok (.suggestion (handle_claim_suggestions env message_text context)) := by
  have hu' : (findUrls message_text).isEmpty = false := by
    cases hr : findUrls message_text with
    | nil => exact absurd hr hu
    | cons a t => rfl
  unfold handle_message_with_intent
  simp only [hu', hf, he, Bool.not_false, if_true, py_bind_ok, py_pure]

/-! ## Concrete test environment shared by the closed instances -/

/-- A baseline oracle environment for closed instances; the variants
override single fields. -/
def testEnv : Env where
  fact_check := fun _ => .ok Json.null
  stance_detection := fun _ => .ok Json.null
  generate := fun _ _ => .ok "Claim 1: Water is wet"
  detect_claims := fun _ => .ok []
  get_prompt := fun name _ _ => name
  rand5 := fun _ => "abcde"
  send_text := fun _ _ _ => .ok Json.null
  send_buttons := fun _ _ _ _ => .ok Json.null
  send_rating := fun _ _ _ => .ok Json.null
  send_tg := fun _ _ _ => .ok Json.null

/-- An environment where the stance-detection call for the second claim
raises and the others succeed, as in the spec's three-claim example. -/
def failSecondEnv : Env :=
  { testEnv with
    stance_detection := fun claim =>
      if claim = "c2" then .error "TimeoutError" else .ok Json.null }

/-- Concrete three-claim run for C3's scenario: claim `c2`'s call raises,
the batch still completes with the evidence of `c1` and `c3` (each of
which cleans to `[]` here) and nothing for `c2`. -/
theorem fact_check_partial_failure_example :
    failSecondEnv.stance_detection "c2" = .error "TimeoutError" ∧
    handle_fact_check_intent failSecondEnv "m" "" ["c1", "c2", "c3"] [] =
      .ok ("fact_check", "[]\n[]\n") := ⟨rfl, rfl⟩

/-- Closed instance of C5: a message with one URL whose fact-check
evidence cleans to the empty list routes to the Suggest transition. -/
theorem url_empty_evidence_suggests_witness :
    (findUrls "see https://example.com" ≠ [] ∧
      handle_fact_check_intent testEnv "see https://example.com" "" []
        (findUrls "see https://example.com") = .ok ("fact_check", "[]\n") ∧
      pyStrip "[]\n" = "[]") ∧
    handle_message_with_intent testEnv "see https://example.com" "" =
      .ok (.suggestion
        (handle_claim_suggestions testEnv "see https://example.com" "")) := by
  have h1 : findUrls "see https://example.com" ≠ [] := by
    intro h
    have h2 : (findUrls "see https://example.com").length = 1 := rfl
    rw [h] at h2
    simp at h2
  have h2 : handle_fact_check_intent testEnv "see https://example.com" "" []
      (findUrls "see https://example.com") = .ok ("fact_check", "[]\n") := rfl
  have h3 : pyStrip "[]\n" = "[]" := rfl
  exact ⟨⟨h1, h2, h3⟩,
    url_empty_evidence_suggests testEnv "see https://example.com" ""
      "fact_check" "[]\n" h1 h2 h3⟩

/-! ## C10: verdict and confidence mapping -/

/-- The `finalPrediction` field as delivered: absent/`None`, or an
integer. -/
def jsonOfFP : Option Int → Json
  | none => Json.null
  | some n => Json.int n

/-- The `finalScore` field as delivered: absent/`None`, or a float. -/
def jsonOfFS : Option ℚ → Json
  | none => Json.null
  | some q => Json.float q

theorem round2Q_hundred : round2Q (100 : ℚ) = 100 := by
  have h : (100 : ℚ) = ((100 : ℤ) : ℚ) := by norm_num
  rw [h, round2Q_intCast]

theorem round2Q_zero : round2Q (0 : ℚ) = 0 := by
  have h : (0 : ℚ) = ((0 : ℤ) : ℚ) := by norm_num
  rw [h, round2Q_intCast]

theorem cleaner_confidence_int_zero (v : String) :
    cleaner_confidence v (Json.int 0) =
      .ok (Json.int (if v = "Incorrect" then 100 else 0)) := by
  by_cases hv : v = "Incorrect" <;>
    simp [cleaner_confidence, pyTruthy, hv]

theorem cleaner_confidence_val (v : String) (fs : Option ℚ) :
    ∃ c, cleaner_confidence v (jsonOfFS fs) = .ok c ∧
      numVal? c = some (if v = "Incorrect" then round2Q ((1 - fs.getD 0) * 100)
        else round2Q (fs.getD 0 * 100)) := by
  have score_zero : ∀ h : cleaner_confidence v (jsonOfFS fs) =
        cleaner_confidence v (Json.int 0), fs.getD 0 = 0 →
      ∃ c, cleaner_confidence v (jsonOfFS fs) = .ok c ∧
        numVal? c = some (if v = "Incorrect" then
          round2Q ((1 - fs.getD 0) * 100) else round2Q (fs.getD 0 * 100)) := by
    intro h hge
    refine ⟨Json.int (if v = "Incorrect" then 100 else 0), ?_, ?_⟩
    · rw [h, cleaner_confidence_int_zero]
    · by_cases hv : v = "Incorrect" <;>
        simp [hv, numVal?, hge, round2Q_hundred, round2Q_zero]
  rcases fs with _ | q
  · exact score_zero (by simp [jsonOfFS, cleaner_confidence, pyTruthy]) rfl
  · by_cases hq : q.num = 0
    · have hq0 : q = 0 := by rwa [Rat.num_eq_zero] at hq
      subst hq0
      exact score_zero (by simp [jsonOfFS, cleaner_confidence, pyTruthy]) rfl
    · refine ⟨Json.float (round2Q (if v = "Incorrect" then qMul (qSub 1 q) 100
        else qMul q 100)), ?_, ?_⟩
      · simp [cleaner_confidence, jsonOfFS, pyTruthy, hq]
      · by_cases hv : v = "Incorrect" <;>
          simp [hv, numVal?, qMul_eq, qSub_eq]

theorem pyEq_int_int (n m : ℤ) :
    pyEq (Json.int n) (Json.int m) = decide (n = m) := by
  have h : pyEq (Json.int n) (Json.int m) = qBEq ((n : ℚ)) ((m : ℚ)) := rfl
  rw [h]
  by_cases hnm : n = m
  · simp [hnm, qBEq]
  · have : ¬(((n : ℚ)).num = ((m : ℚ)).num) := by
      rw [Rat.num_intCast, Rat.num_intCast]
      exact hnm
    simp [qBEq, this, hnm]

/-- C10: in the cleaner, a present `finalPrediction` equal to `0` yields
verdict `Incorrect` with confidence `round((1 − finalScore) · 100, 2)`, a
present nonzero `finalPrediction` yields `Correct` with confidence
`round(finalScore · 100, 2)`, an absent `finalPrediction` yields
`Uncertain`; a missing or null `finalScore` is read as `0`.  The same
expressions appear in src/core/utils/cleaner.py lines 52–64 and in the
stance branch of src/fact_checker/utils.py lines 329–337, both embedded
by `cleaner_final_verdict` and `cleaner_confidence`. -/
theorem cleaner_verdict_confidence_mapping (fp : Option Int) (fs : Option ℚ) :
    (fp = some 0 →
      cleaner_final_verdict (jsonOfFP fp) = "Incorrect" ∧
      ∃ c, cleaner_confidence (cleaner_final_verdict (jsonOfFP fp))
          (jsonOfFS fs) = .ok c ∧
        numVal? c = some (round2Q ((1 - fs.getD 0) * 100))) ∧
    (∀ n : ℤ, fp = some n → n ≠ 0 →
      cleaner_final_verdict (jsonOfFP fp) = "Correct" ∧
      ∃ c, cleaner_confidence (cleaner_final_verdict (jsonOfFP fp))
          (jsonOfFS fs) = .ok c ∧
        numVal? c = some (round2Q (fs.getD 0 * 100))) ∧
    (fp = none → cleaner_final_verdict (jsonOfFP fp) = "Uncertain") := by
  refine ⟨?_, ?_, ?_⟩
  · intro h
    subst h
    have hv : cleaner_final_verdict (jsonOfFP (some 0)) = "Incorrect" := rfl
    refine ⟨hv, ?_⟩
    rw [hv]
    have := cleaner_confidence_val "Incorrect" fs
    simpa using this
  · intro n h hn
    subst h
    have hv : cleaner_final_verdict (jsonOfFP (some n)) = "Correct" := by
      simp [cleaner_final_verdict, jsonOfFP, isNull, pyEq_int_int, hn]
    refine ⟨hv, ?_⟩
    rw [hv]
    have := cleaner_confidence_val "Correct" fs
    simpa using this
  · intro h
    subst h
    rfl

/-! ## C9: totality of `clean_facts` -/

/-- C9 counterexample: a stance-detection response dictionary has no
`"text"` field, yet `clean_facts` returns a non-empty list for it — so
"for a missing `text` field clean_facts returns the empty list" is false
as a universal statement. -/
theorem clean_facts_missing_text_counterexample :
    dictLookup [(("collection" : String), Json.str "stance_detection"),
      ("evidence", Json.arr [Json.obj [("labelDescription",
        Json.str "SUPPORTS")]])] "text" = none ∧
    (clean_facts (Json.obj [("collection", Json.str "stance_detection"),
      ("evidence", Json.arr [Json.obj [("labelDescription",
        Json.str "SUPPORTS")]])])).length = 1 := by
  exact ⟨rfl, rfl⟩

/-- C9 (amended): `clean_facts` is total; it returns `[]` for `None`
input, for a non-stance-detection dictionary whose `text` field is
missing or `None`, and whenever the processing body raises — the
stance-detection collection shape being the one exception to the
missing-`text` clause. -/
theorem clean_facts_total_and_empty_cases :
    (clean_facts Json.null = []) ∧
    (∀ kvs : List (String × Json),
      stance_condition (Json.obj kvs) = .ok false →
      dictLookup kvs "text" = none → clean_facts (Json.obj kvs) = []) ∧
    (∀ kvs : List (String × Json),
      stance_condition (Json.obj kvs) = .ok false →
      dictLookup kvs "text" = some Json.null →
        clean_facts (Json.obj kvs) = []) ∧
    (∀ (j : Json) (e : String),
      clean_facts_core j = .error e → clean_facts j = []) := by
  refine ⟨rfl, ?_, ?_, ?_⟩
  · intro kvs hs ht
    have hc : clean_facts_core (Json.obj kvs) = .ok [] := by
      unfold clean_facts_core
      rw [hs]
      simp [jGetD, dictGetD, ht, isNull, pyIter]
    simp [clean_facts, isNull, hc]
  · intro kvs hs ht
    have hc : clean_facts_core (Json.obj kvs) = .ok [] := by
      unfold clean_facts_core
      rw [hs]
      simp [jGetD, dictGetD, ht, isNull]
    simp [clean_facts, isNull, hc]
  · intro j e h
    unfold clean_facts
    cases hj : isNull j with
    | true => rfl
    | false => simp [h]

/-- Closed instance of C9 (amended): the empty-returning cases at
concrete inputs. -/
theorem clean_facts_total_and_empty_cases_witness :
    (stance_condition (Json.obj [(("a" : String), Json.int 1)]) = .ok false ∧
      dictLookup [(("a" : String), Json.int 1)] "text" = none ∧
      clean_facts (Json.obj [("a", Json.int 1)]) = []) ∧
    (stance_condition (Json.obj [(("text" : String), Json.null)]) = .ok false ∧
      dictLookup [(("text" : String), Json.null)] "text" = some Json.null ∧
      clean_facts (Json.obj [("text", Json.null)]) = []) ∧
    (clean_facts_core (Json.str "x") = .error "AttributeError" ∧
      clean_facts (Json.str "x") = []) :=
  ⟨⟨rfl, rfl, clean_facts_total_and_empty_cases.2.1 _ rfl rfl⟩,
    ⟨rfl, rfl, clean_facts_total_and_empty_cases.2.2.1 _ rfl rfl⟩,
    ⟨rfl, clean_facts_total_and_empty_cases.2.2.2 _ "AttributeError" rfl⟩⟩

/-- Closed instances of C10 at concrete predictions and scores. -/
theorem cleaner_verdict_confidence_mapping_witness :
    (cleaner_final_verdict (jsonOfFP (some 0)) = "Incorrect" ∧
      ∃ c, cleaner_confidence (cleaner_final_verdict (jsonOfFP (some 0)))
          (jsonOfFS (some (mkRat 857 1000))) = .ok c ∧
        numVal? c = some (round2Q ((1 - (some (mkRat 857 1000)).getD 0) * 100))) ∧
    (cleaner_final_verdict (jsonOfFP (some 1)) = "Correct" ∧
      ∃ c, cleaner_confidence (cleaner_final_verdict (jsonOfFP (some 1)))
          (jsonOfFS (none : Option ℚ)) = .ok c ∧
        numVal? c = some (round2Q (((none : Option ℚ)).getD 0 * 100))) ∧
    cleaner_final_verdict (jsonOfFP none) = "Uncertain" :=
  ⟨(cleaner_verdict_confidence_mapping (some 0) (some (mkRat 857 1000))).1 rfl,
    (cleaner_verdict_confidence_mapping (some 1) none).2.1 1 rfl (by decide),
    (cleaner_verdict_confidence_mapping none none).2.2 rfl⟩

end Chatbot

namespace Chatbot

/-! ## Process-wide state and the platform send layer
(src/core/processors/processors.py; src/platform/whatsapp/utils.py)

`send_rating_message` and `process_telegram_message` are thin wire
formatters around further HTTP posts; they are collapsed into their
oracles, while `send_interactive_buttons` keeps its `buttons[:3]` cap
(src/platform/whatsapp/utils.py lines 83–93), the part the claims are
about. -/

structure GState where
  message_context : List (String × List String)
  message_id_to_bot_message : List (String × String)
  button_id_to_claim : List (String × String)

/-- Python `j[k]` (`KeyError` when absent, `TypeError` on a non-dict). -/
def pyGetItem (j : Json) (k : String) : Py Json :=
  match j with
  | .obj kvs =>
    match dictLookup kvs k with
    | some v => .ok v
    | none => .error "KeyError"
  | _ => .error "TypeError"

/-- Python `j[i]` for a list. -/
def pyIndex (j : Json) (i : Nat) : Py Json :=
  match j with
  | .arr xs =>
    match xs.get? i with
    | some v => .ok v
    | none => .error "IndexError"
  | _ => .error "TypeError"

/-- src/platform/whatsapp/utils.py lines 65–128: format `buttons[:3]`
and post; the emitted event records exactly what goes on the wire. -/
def send_interactive_buttons (env : Env) (phone body : String)
    (buttons : List (String × String)) (reply_to : String) :
    List Event × Py Json :=
  let formatted := buttons.take 3
  ([Event.sendButtons phone body formatted reply_to],
    env.send_buttons phone body formatted reply_to)

/-- src/platform/whatsapp/utils.py lines 18–62: truncate, then post. -/
def send_whatsapp_message_run (env : Env) (phone message reply_to : String) :
    List Event × Py Json :=
  let body := send_whatsapp_message_body message
  ([Event.sendText phone body reply_to], env.send_text phone body reply_to)

/-- src/platform/whatsapp/utils.py lines 208–292, collapsed into its
oracle. -/
def send_rating_message_run (env : Env) (phone message_id response : String) :
    List Event × Py Json :=
  ([Event.sendRating phone message_id response],
    env.send_rating phone message_id response)

/-- src/platform/telegram/utils.py `process_telegram_message`, collapsed
into its oracle. -/
def process_telegram_message_run (env : Env)
    (chat_id message_id response : String) : List Event × Py Json :=
  ([Event.sendTelegram chat_id message_id response],
    env.send_tg chat_id message_id response)

/-- src/platform/whatsapp/utils.py lines 295–325: buttons, else rating,
else plain text (`if buttons:` is Python truthiness, so `None` and `[]`
both fall through). -/
def process_whatsapp_message (env : Env) (phone message_id response : String)
    (buttons : Option (List (String × String))) (add_rating : Bool) :
    List Event × Py Json :=
  match buttons with
  | some (x :: xs) => send_interactive_buttons env phone response (x :: xs)
      message_id
  | _ =>
    if add_rating then send_rating_message_run env phone message_id response
    else send_whatsapp_message_run env phone response message_id

/-- processors.py lines 240–242: `sent_message["messages"][0]["id"]`
recorded into `message_id_to_bot_message` when
`sent_message and "messages" in sent_message`. -/
def record_sent_message_wa (sent : Json) (response : String)
    (tbl : List (String × String)) : Py (List (String × String)) := do
  let hasMsgs ← if pyTruthy sent then pyContains sent (.str "messages")
    else pure false
  if hasMsgs then do
    let msgs ← pyGetItem sent "messages"
    let m0 ← pyIndex msgs 0
    let idj ← pyGetItem m0 "id"
    match idj with
    | .str bid => pure (dictSet tbl bid response)
    | _ => .error "TypeError"
  else pure tbl

/-- processors.py lines 248–254: `str(sent["result"]["message_id"])`
recorded when `sent and "result" in sent and "message_id" in
sent["result"]`. -/
def record_sent_message_tg (sent : Json) (response : String)
    (tbl : List (String × String)) : Py (List (String × String)) := do
  let c1 ← if pyTruthy sent then pyContains sent (.str "result")
    else pure false
  let c2 ←
    if c1 then do
      let rj ← pyGetItem sent "result"
      pyContains rj (.str "message_id")
    else pure false
  if c2 then do
    let rj ← pyGetItem sent "result"
    let mid ← pyGetItem rj "message_id"
    pure (dictSet tbl (pyStr mid) response)
  else pure tbl

/-- processors.py lines 212–257: append the bot line to the user's
context (a `KeyError` if the user has no context entry, as in the
source's direct indexing), send via the platform adapter, then record the
platform message id; an `Except.error` is the re-raised exception of the
`except` clause. -/
def process_tracked_message (env : Env) (st : GState)
    (user_id phone message_id response : String)
    (buttons : Option (List (String × String))) (platform : String)
    (add_rating : Bool) : GState × List Event × Py Unit :=
  match dictLookup st.message_context user_id with
  | none => (st, [], .error "KeyError")
  | some lines =>
    let newCtx := dictSet st.message_context user_id
      (lines ++ ["Bot: " ++ response ++ "\n"])
    let st1 := { st with message_context := newCtx }
    if platform = "whatsapp" then
      let er := process_whatsapp_message env phone message_id response
        buttons add_rating
      match er.2 with
      | .error e => (st1, er.1, .error e)
      | .ok sent =>
        match record_sent_message_wa sent response
            st1.message_id_to_bot_message with
        | .ok tbl2 =>
          ({ st1 with message_id_to_bot_message := tbl2 }, er.1, .ok ())
        | .error e => (st1, er.1, .error e)
    else if platform = "telegram" then
      let er := process_telegram_message_run env phone message_id response
      match er.2 with
      | .error e => (st1, er.1, .error e)
      | .ok sent =>
        match record_sent_message_tg sent response
            st1.message_id_to_bot_message with
        | .ok tbl2 =>
          ({ st1 with message_id_to_bot_message := tbl2 }, er.1, .ok ())
        | .error e => (st1, er.1, .error e)
    else (st1, [], .ok ())

/-- processors.py line 69–72 / 78: the two fixed error texts. -/
def couldNotProcessText : String :=
  "Sorry, I couldn\x27t process your request. Please try again or rephrase your message."

/-- Fixed outer-exception text of `process_message_response`. -/
def encounteredErrorText : String :=
  "Sorry, I encountered an error processing your request."

/-- processors.py lines 38–81: dispatch, record every
`{button_id: claim}` pair into the process-wide Button-to-Claim table,
send tracked; any exception falls back to one more tracked send of the
fixed error text. -/
def process_message_response (env : Env) (st : GState)
    (user_id phone message_id message_text context platform : String) :
    GState × List Event × Py Unit :=
  let tryRun : GState × List Event × Py Unit → GState × List Event × Py Unit :=
    fun out =>
      match out.2.2 with
      | .ok _ => out
      | .error _ =>
        let out2 := process_tracked_message env out.1 user_id phone message_id
          encounteredErrorText none platform true
        (out2.1, out.2.1 ++ out2.2.1, out2.2.2)
  match handle_message_with_intent env message_text context with
  | .error _ => tryRun (st, [], .error "dispatch")
  | .ok result =>
    match result with
    | .suggestion (buttons, btn_map, response) =>
      let newTbl := btn_map.foldl (fun d pr => dictSet d pr.1 pr.2)
        st.button_id_to_claim
      let st1 := { st with button_id_to_claim := newTbl }
      let evs0 := btn_map.map (fun pr => Event.recordButton pr.1 pr.2)
      let out := process_tracked_message env st1 user_id phone message_id
        response (some buttons) platform true
      tryRun (out.1, evs0 ++ out.2.1, out.2.2)
    | .text r =>
      if r ≠ "" then
        tryRun (process_tracked_message env st user_id phone message_id r
          none platform true)
      else
        tryRun (process_tracked_message env st user_id phone message_id
          couldNotProcessText none platform true)
    | .noResponse =>
      tryRun (process_tracked_message env st user_id phone message_id
        couldNotProcessText none platform true)

end Chatbot

namespace Chatbot

/-! ## C6 support: dictionary-key facts and suggestion structure -/

theorem mem_keys_dictSet {α : Type} (d : List (String × α)) (k x : String)
    (v : α) (h : x ∈ (dictSet d k v).map Prod.fst) :
    x ∈ d.map Prod.fst ∨ x = k := by
  induction d with
  | nil =>
    simp only [dictSet, List.map_cons, List.map_nil, List.mem_singleton] at h
    exact Or.inr h
  | cons p t ih =>
    by_cases hp : p.1 = k
    · simp only [dictSet, hp, if_true, List.map_cons] at h
      rcases List.mem_cons.1 h with h | h
      · exact Or.inr h
      · exact Or.inl (by simp [h])
    · simp only [dictSet, hp, if_false, List.map_cons] at h
      rcases List.mem_cons.1 h with h | h
      · exact Or.inl (by simp [h])
      · rcases ih h with h2 | h2
        · exact Or.inl (by simp [h2])
        · exact Or.inr h2

theorem nodup_keys_dictSet {α : Type} (d : List (String × α)) (k : String)
    (v : α) (h : (d.map Prod.fst).Nodup) :
    ((dictSet d k v).map Prod.fst).Nodup := by
  induction d with
  | nil => simp [dictSet]
  | cons p t ih =>
    simp only [List.map_cons, List.nodup_cons] at h
    by_cases hp : p.1 = k
    · simp only [dictSet, hp, if_true, List.map_cons, List.nodup_cons]
      exact ⟨by rw [← hp]; exact h.1, h.2⟩
    · simp only [dictSet, hp, if_false, List.map_cons, List.nodup_cons]
      refine ⟨?_, ih h.2⟩
      intro hmem
      rcases mem_keys_dictSet t k p.1 v hmem with h2 | h2
      · exact h.1 h2
      · exact hp h2

theorem nodup_keys_foldl_dictSet {β : Type}
    (f : β → String) (g : β → String) (l : List β) :
    ∀ base : List (String × String), (base.map Prod.fst).Nodup →
      ((l.foldl (fun d p => dictSet d (f p) (g p)) base).map Prod.fst).Nodup := by
  induction l with
  | nil => intro base h; simpa using h
  | cons p t ih =>
    intro base h
    simp only [List.foldl_cons]
    exact ih _ (nodup_keys_dictSet base (f p) (g p) h)

theorem dictLookup_foldl_not_mem (rest : List (String × String)) :
    ∀ (base : List (String × String)) (k : String),
      (∀ pr ∈ rest, pr.1 ≠ k) →
      dictLookup (rest.foldl (fun d pr => dictSet d pr.1 pr.2) base) k =
        dictLookup base k := by
  induction rest with
  | nil => intro base k _; rfl
  | cons pr t ih =>
    intro base k h
    simp only [List.foldl_cons]
    rw [ih _ k (fun q hq => h q (by simp [hq]))]
    exact dictLookup_dictSet_other base pr.1 k pr.2
      (fun he => h pr (by simp) (he.symm))

theorem dictLookup_foldl_of_mem (t : List (String × String)) :
    ∀ (base : List (String × String)) (k : String) (v : String),
      (t.map Prod.fst).Nodup → dictLookup t k = some v →
      dictLookup (t.foldl (fun d pr => dictSet d pr.1 pr.2) base) k =
        some v := by
  induction t with
  | nil => intro base k v _ h; simp [dictLookup] at h
  | cons pr rest ih =>
    intro base k v hnd h
    simp only [List.map_cons, List.nodup_cons] at hnd
    simp only [List.foldl_cons]
    by_cases hpk : pr.1 = k
    · have hv : pr.2 = v := by
        simp only [dictLookup, hpk, if_true] at h
        exact Option.some.inj h
      subst hv
      rw [dictLookup_foldl_not_mem rest _ k (fun q hq he => by
        have hq2 : q.1 ∈ rest.map Prod.fst := List.mem_map_of_mem Prod.fst hq
        rw [he, ← hpk] at hq2
        exact hnd.1 hq2)]
      rw [hpk]
      exact dictLookup_dictSet_self base k pr.2
    · have h2 : dictLookup rest k = some v := by
        simpa [dictLookup, hpk] using h
      exact ih _ k v hnd.2 h2

theorem suggestions_table_keys_nodup (env : Env) (m c : String) :
    (((handle_claim_suggestions env m c).2.1).map Prod.fst).Nodup := by
  unfold handle_claim_suggestions
  cases env.generate (env.get_prompt "claim_suggestion" m c) m with
  | error e => simp
  | ok resp =>
    simp only
    exact nodup_keys_foldl_dictSet (fun p => env.rand5 p.1) (fun p => p.2)
      ((extract_suggested_claims resp).enum) [] (by simp)

theorem suggestions_button_ids (env : Env) (m c : String) :
    ∀ pr ∈ (handle_claim_suggestions env m c).1, ∃ i, pr.1 = env.rand5 i := by
  unfold handle_claim_suggestions
  cases env.generate (env.get_prompt "claim_suggestion" m c) m with
  | error e => simp
  | ok resp =>
    intro pr hpr
    simp only [List.mem_map] at hpr
    rcases hpr with ⟨p, _, hp⟩
    exact ⟨p.1, by rw [← hp]⟩

/-- Every Suggest result of the dispatcher is exactly the
`handle_claim_suggestions` triple for the same message and context. -/
theorem dispatch_suggestion_eq (env : Env) (m c : String)
    (d : List (String × String) × List (String × String) × String)
    (h : handle_message_with_intent env m c = .ok (.suggestion d)) :
    d = handle_claim_suggestions env m c := by
  unfold handle_message_with_intent at h
  simp only [Bind.bind, Except.bind, pure, Except.pure] at h
  repeat' split at h
  all_goals simp_all

end Chatbot

namespace Chatbot

theorem tracked_preserves_button_table (env : Env) (st : GState)
    (user_id phone message_id response : String)
    (buttons : Option (List (String × String))) (platform : String)
    (add_rating : Bool) :
    (process_tracked_message env st user_id phone message_id response buttons
      platform add_rating).1.button_id_to_claim = st.button_id_to_claim := by
  unfold process_tracked_message
  split
  · rfl
  · dsimp only
    repeat' split
    all_goals rfl

theorem tracked_buttons_shape (env : Env) (st : GState)
    (user_id phone message_id response : String) (x : String × String)
    (xs : List (String × String)) (lines : List String)
    (huser : dictLookup st.message_context user_id = some lines) :
    ∃ st2 res,
      process_tracked_message env st user_id phone message_id response
        (some (x :: xs)) "whatsapp" true =
      (st2, [Event.sendButtons phone response ((x :: xs).take 3) message_id],
        res) := by
  unfold process_tracked_message
  rw [huser]
  dsimp only
  rw [if_pos rfl]
  unfold process_whatsapp_message send_interactive_buttons
  dsimp only
  repeat' split
  all_goals exact ⟨_, _, rfl⟩

/-- C6: for every message the dispatcher routes to Suggest (with a
non-empty button list), the processors record every
`{button_id: claim_text}` pair of the suggestion batch into the process
Button-to-Claim table, those record actions all precede the button send
in the trace, the sent interactive message carries at most 3 button
choices (`buttons[:3]`), and every button id is a 5-character random
identifier. -/
theorem suggest_buttons_recorded_and_capped (env : Env) (st : GState)
    (user_id phone message_id message_text context : String)
    (b t : List (String × String)) (r : String) (lines : List String)
    (hres : handle_message_with_intent env message_text context =
      .ok (.suggestion (b, t, r)))
    (huser : dictLookup st.message_context user_id = some lines)
    (hb : b ≠ [])
    (hr5 : ∀ n, (env.rand5 n).length = 5) :
    (∃ rest,
      (process_message_response env st user_id phone message_id message_text
        context "whatsapp").2.1 =
      (t.map fun pr => Event.recordButton pr.1 pr.2) ++
        Event.sendButtons phone r (b.take 3) message_id :: rest) ∧
    (b.take 3).length ≤ 3 ∧
    (∀ k v, dictLookup t k = some v →
      dictLookup (process_message_response env st user_id phone message_id
        message_text context "whatsapp").1.button_id_to_claim k = some v) ∧
    (∀ pr ∈ b, pr.1.length = 5) := by
  have hd := dispatch_suggestion_eq env message_text context (b, t, r) hres
  have hnd : (t.map Prod.fst).Nodup := by
    have := suggestions_table_keys_nodup env message_text context
    rw [← hd] at this
    exact this
  have hids : ∀ pr ∈ b, pr.1.length = 5 := by
    intro pr hpr
    have := suggestions_button_ids env message_text context pr
      (by rw [← hd]; exact hpr)
    rcases this with ⟨i, hi⟩
    rw [hi]
    exact hr5 i
  obtain ⟨x, xs, rfl⟩ : ∃ x xs, b = x :: xs := by
    cases b with
    | nil => exact absurd rfl hb
    | cons x xs => exact ⟨x, xs, rfl⟩
  -- run the processors
  unfold process_message_response
  rw [hres]
  dsimp only
  obtain ⟨st2, res, hout⟩ := tracked_buttons_shape env
    (GState.mk st.message_context st.message_id_to_bot_message
      (List.foldl (fun d pr => dictSet d pr.1 pr.2) st.button_id_to_claim t))
    user_id phone message_id r x xs lines huser
  have hbt2 : st2.button_id_to_claim =
      List.foldl (fun d pr => dictSet d pr.1 pr.2) st.button_id_to_claim t := by
    have hp := tracked_preserves_button_table env
      (GState.mk st.message_context st.message_id_to_bot_message
        (List.foldl (fun d pr => dictSet d pr.1 pr.2) st.button_id_to_claim t))
      user_id phone message_id r (some (x :: xs)) "whatsapp" true
    rw [hout] at hp
    exact hp
  rw [hout]
  cases res with
  | ok u =>
    refine ⟨⟨[], by simp⟩, by simp, ?_, hids⟩
    intro k v hkv
    dsimp only
    rw [hbt2]
    exact dictLookup_foldl_of_mem t st.button_id_to_claim k v hnd hkv
  | error e =>
    dsimp only
    refine ⟨?_, by simp, ?_, hids⟩
    · exact ⟨(process_tracked_message env st2 user_id phone message_id
        encounteredErrorText none "whatsapp" true).2.1, by simp⟩
    · intro k v hkv
      rw [tracked_preserves_button_table, hbt2]
      exact dictLookup_foldl_of_mem t st.button_id_to_claim k v hnd hkv

end Chatbot

namespace Chatbot

/-- Closed instance of C6: one suggestion batch on a concrete state. -/
theorem suggest_buttons_recorded_and_capped_witness :
    (handle_message_with_intent testEnv "see https://example.com" "" =
        .ok (.suggestion ([("abcde", "Claim 1")],
          [("abcde", "Water is wet")], "Claim 1: Water is wet")) ∧
      dictLookup ([("user1", ["User: hi\n"])] :
          List (String × List String)) "user1" = some ["User: hi\n"] ∧
      ([(("abcde" : String), ("Claim 1" : String))] :
          List (String × String)) ≠ [] ∧
      (∀ n, (testEnv.rand5 n).length = 5)) ∧
    ((∃ rest,
        (process_message_response testEnv
          (GState.mk [("user1", ["User: hi\n"])] [] []) "user1" "15550000000"
          "wamid.in" "see https://example.com" "" "whatsapp").2.1 =
        (([("abcde", "Water is wet")] : List (String × String)).map fun pr =>
          Event.recordButton pr.1 pr.2) ++
          Event.sendButtons "15550000000" "Claim 1: Water is wet"
            (([("abcde", "Claim 1")] : List (String × String)).take 3)
            "wamid.in" :: rest) ∧
      ((([(("abcde" : String), ("Claim 1" : String))] :
          List (String × String)).take 3)).length ≤ 3 ∧
      (∀ k v, dictLookup ([("abcde", "Water is wet")] :
          List (String × String)) k = some v →
        dictLookup (process_message_response testEnv
          (GState.mk [("user1", ["User: hi\n"])] [] []) "user1" "15550000000"
          "wamid.in" "see https://example.com" ""
          "whatsapp").1.button_id_to_claim k = some v) ∧
      (∀ pr ∈ ([(("abcde" : String), ("Claim 1" : String))] :
          List (String × String)), pr.1.length = 5)) := by
  have h1 : handle_message_with_intent testEnv "see https://example.com" "" =
      .ok (.suggestion ([("abcde", "Claim 1")],
        [("abcde", "Water is wet")], "Claim 1: Water is wet")) := rfl
  have h2 : dictLookup ([("user1", ["User: hi\n"])] :
      List (String × List String)) "user1" = some ["User: hi\n"] := rfl
  have h3 : ([(("abcde" : String), ("Claim 1" : String))] :
      List (String × String)) ≠ [] := by simp
  have h4 : ∀ n, (testEnv.rand5 n).length = 5 := fun _ => rfl
  exact ⟨⟨h1, h2, h3, h4⟩,
    suggest_buttons_recorded_and_capped testEnv
      (GState.mk [("user1", ["User: hi\n"])] [] []) "user1" "15550000000"
      "wamid.in" "see https://example.com" "" [("abcde", "Claim 1")]
      [("abcde", "Water is wet")] "Claim 1: Water is wet" ["User: hi\n"]
      h1 h2 h3 h4⟩

end Chatbot
